import Mathlib

/-!
Shallow embedding of the DWG POS payment program (`main.py`): the card
validator (`check_card`), the gateway response-code table
(`response_codes`), the ledger poster (`apply_payment`) and the payment
orchestrator (`process_payment`), together with theorems settling the
frozen claims about them.

External collaborators (PostgreSQL database, pushover alert endpoint,
transaction CSV journal, clipboard, Windows event log) are modelled as
explicit state threaded through the functions.  Python `float` values are
modelled as rationals together with an explicit round-to-nearest-even
binary64 rounding function.
-/

namespace DWGPOS

/- Batteries marks the arithmetic on `Rat` `@[irreducible]`, which stops
concrete evaluation of rational arithmetic during elaboration; witnesses
below evaluate the model on concrete inputs, so restore the ordinary
(semireducible) unfolding behaviour of these operations for this file. -/
set_option allowUnsafeReducibility true
attribute [semireducible] Rat.add Rat.mul Rat.inv Rat.sub

/-! ### A model of Python `float` (IEEE binary64) arithmetic

Python floats are IEEE double-precision numbers.  We model a double by
the exact rational value it denotes, and model conversion of a real
(rational) quantity to a double by `roundDouble`: round to the nearest
rational of the form `m * 2^(e-52)` with `2^52 ≤ m < 2^53`, ties to even.
This is the standard model of binary64 in its normal range, which covers
every currency amount this program handles (subnormals and overflow are
out of range for amounts bounded by the 300000-cent ceiling).  Arithmetic
`a - b` on doubles is modelled as `roundDouble (a - b)`, which is how IEEE
defines the operation (the exact result, correctly rounded). -/

/-- Fuel-driven floor of the base-2 logarithm on naturals:
`nlog2Aux fuel n` halves `n` until it reaches `1`. -/
def nlog2Aux : Nat → Nat → Nat
  | 0, _ => 0
  | fuel + 1, n => if n ≤ 1 then 0 else nlog2Aux fuel (n / 2) + 1

/-- `nlog2 n` is `⌊log₂ n⌋` for `n ≥ 1` (and `0` for `n = 0`);
`n` itself is always enough fuel. -/
def nlog2 (n : Nat) : Nat := nlog2Aux n n

/-- Floor of a rational as an integer (the denominator of `ℚ` is positive,
so flooring division of the numerator by it is the floor). -/
def ratFloor (q : ℚ) : ℤ := q.num.fdiv (q.den : ℤ)

/-- `2 ^ e` in `ℚ` for an integer exponent `e` (via natural powers, which
evaluate fast). -/
def pow2 (e : ℤ) : ℚ :=
  if 0 ≤ e then ((2 ^ e.toNat : ℕ) : ℚ) else (((2 ^ (-e).toNat : ℕ) : ℚ))⁻¹

/-- For `q > 0`, the unique `e : ℤ` with `2 ^ e ≤ q < 2 ^ (e + 1)`. -/
def floorLog2 (q : ℚ) : ℤ :=
  if 1 ≤ q then (nlog2 (ratFloor q).toNat : ℤ)
  else
    let f := nlog2 (ratFloor q⁻¹).toNat
    if q * pow2 (f : ℤ) = 1 then -(f : ℤ) else -(f : ℤ) - 1

/-- Round a rational to the nearest integer, ties to the even integer. -/
def roundHalfEven (q : ℚ) : ℤ :=
  let fl := ratFloor q
  let fr := q - (fl : ℚ)
  if fr < 1/2 then fl
  else if fr > 1/2 then fl + 1
  else if fl % 2 = 0 then fl else fl + 1

/-- Model of conversion of an exact rational quantity to an IEEE binary64
double (normal range): scale the magnitude into `[2^52, 2^53)`, round the
53-bit significand to nearest, ties to even, and scale back. -/
def roundDouble (q : ℚ) : ℚ :=
  if q = 0 then 0
  else
    let s : ℚ := if 0 < q then 1 else -1
    let a := |q|
    let e := floorLog2 a
    s * (roundHalfEven (a * pow2 (52 - e)) : ℚ) * pow2 (e - 52)

/-- Python float subtraction `a - b` on doubles: the exact difference,
correctly rounded (IEEE binary64 semantics). -/
def pySub (a b : ℚ) : ℚ := roundDouble (a - b)

/-- Python `cents / 100` on an `int`: true division producing a double,
i.e. the exact quotient correctly rounded to binary64. -/
def pyDiv100 (c : ℤ) : ℚ := roundDouble ((c : ℚ) / 100)

/-! ### Card validator (`check_card`, main.py lines 1505-1541)

The source strips spaces, reverses the digit string, doubles every digit
at an odd 0-based index of the reversed sequence, replaces any value over
9 by that value minus 9, sums, and marks the card valid iff the sum is
divisible by 10 and the stripped string has length 16.  The whole body is
wrapped in a `try`/`except BaseException` whose handler only logs: on a
string containing a non-digit character, `int(i)` raises and the function
neither marks the card valid nor invalid.  We model the result as
`Option Bool`: `some true` = marked valid (green border, process button
enabled), `some false` = marked invalid, `none` = exception path (no
marking).  Python's `int` on a single character also accepts non-ASCII
Unicode decimal digits; digits are modelled as the ASCII digits `'0'-'9'`
that card inputs consist of. -/

/-- `card_number.replace(" ", "")`: remove every space character. -/
def stripSpaces (s : String) : String := ⟨s.data.filter (fun c => c ≠ ' ')⟩

/-- Numeric value of a digit character. -/
def charDigitVal (c : Char) : Nat := c.toNat - 48

/-- `[int(i) for i in cs]`: all characters converted, or `none` if any
character is not a digit (Python raises `ValueError`). -/
def digitsOfList : List Char → Option (List Nat)
  | [] => some []
  | c :: cs =>
    if c.isDigit then (digitsOfList cs).map (fun ds => charDigitVal c :: ds)
    else none

/-- The Luhn validation of `check_card`, faithful to the source: strip
spaces, record the (stripped) length, reverse, convert to digit values
(exception → `none`), double odd-indexed entries of the reversed list,
subtract 9 from entries over 9, sum, and compare. -/
def check_card (card : String) : Option Bool :=
  let stripped := stripSpaces card
  let length := stripped.length
  let rev := stripped.data.reverse
  match digitsOfList rev with
  | none => none
  | some ds =>
    let doubled := ds.enum.map (fun p => if p.1 % 2 = 1 then p.2 * 2 else p.2)
    let adjusted := doubled.map (fun i => if i > 9 then i - 9 else i)
    let total := adjusted.foldl (· + ·) 0
    some (decide (total % 10 = 0 ∧ length = 16))

/-- The Luhn sum exactly as the claim words it: reverse the digits, double
every digit at an odd 0-based index of the reversed sequence, subtract 9
from any doubled value over 9, sum all. -/
def luhnSpecSum (digits : List Nat) : Nat :=
  (digits.reverse.enum.map (fun p =>
    let v := if p.1 % 2 = 1 then p.2 * 2 else p.2
    if v > 9 then v - 9 else v)).foldl (· + ·) 0

/-- Validity as the claim words it: after stripping spaces the string has
exactly 16 digit characters and the Luhn sum is divisible by 10. -/
def luhnSpecValid (s : String) : Bool :=
  let t := stripSpaces s
  t.data.all Char.isDigit && t.length == 16
    && luhnSpecSum (t.data.map charDigitVal) % 10 == 0

/-! ### Response classifier (`response_codes`, main.py lines 719-779)

The source holds a dict from gateway reason codes to combined
explanation/next-step message strings; the orchestrator looks a decline
reason up in it and, when the reason is absent, falls back to a generic
unknown-status message built from the payment status
(main.py lines 1100-1126). -/

/-- The response-code table of the source, in source order, with each
value the concatenation of the adjacent string literals. -/
def response_codes : List (String × String) := [
  ("APPROVED", "Success: The transaction was approved."),
  ("DECLINED", "Error: The customer’s bank declined the transaction.\nNext Steps: The customer should use an alternate card and contact their bank."),
  ("PICKUP_CARD", "Error: The customer’s bank declined the transaction because the card was reported lost or stolen.\nNext Steps: The customer should use an alternate card and contact their bank."),
  ("HOT_CARD", "Error: The customer’s bank declined the transaction because the card was reported lost or stolen.\nNext Steps: The customer should use an alternate card and contact their bank."),
  ("LOST_CARD_PICKUP", "Error: The customer’s bank declined the transaction because the card was reported lost or stolen.\nNext Steps: The customer should use an alternate card and contact their bank."),
  ("SUSPECTED_FRAUD", "Error: The customer’s bank declined the transaction because it suspects fraud.\nNext Steps: The customer should contact their bank for more information."),
  ("EXPIRED_CARD", "Error: The customer’s bank declined the transaction because the card is expired.\nNext Steps: The customer should use an alternate card. If the customer believes that the card is still valid, they should contact their bank."),
  ("CVC_MISMATCH", "Error: The customer’s bank declined the transaction because the card’s security code (CVV) did not match.\nNext Steps: The customer should try again using the correct security code."),
  ("INVALID_MERCHANT", "Error: The customer’s bank declined the transaction because they don’t allow transactions from us.\nNext Steps: The customer should contact their bank for more information."),
  ("INVALID_CURRENCY", "Error: The customer’s bank declined the transaction because the card does not allow transactions in AUD.\nNext Steps: The customer should use an alternate card and contact their bank."),
  ("CARD_TYPE_NOT_ENABLED", "Error: The customer’s bank declined the transaction because this type of payment is not allowed.\nNext Steps: The customer should use an alternate card and contact their bank."),
  ("SYSTEM_ERROR", "Error: The customer’s bank declined the transaction due to a technical issue.\nNext Steps: The customer should try again later or pay using an alternate method."),
  ("LIMIT_EXCEEDED", "Error: The customer’s bank declined the transaction because it will exceed the customer’s card limit.\nNext Steps: The customer should use an alternate card or try again tomorrow."),
  ("MERCHANT_LOCKED_OR_CLOSED", "Error: The customer’s bank declined the transaction because the merchant’s account is locked or closed.\nNext Steps: The customer should use an alternate card and contact their bank."),
  ("TOO_MANY_DECLINES", "Error: The customer’s bank declined the transaction due to too many recent transactions failing.\nNext Steps: The customer should use an alternate card or contact their bank."),
  ("INVALID_CARD_NUMBER", "Error: The customer’s bank declined the transaction because the card number is invalid.\nNext Steps: The customer should check their card number and try again."),
  ("DO_NOT_HONOUR", "Error: The customer’s bank declined the transaction but did not provide any more information.\nNext Steps: The customer should check the card details and try again."),
  ("RESTRICTED_CARD", "Error: The customer’s bank declined the transaction because the card cannot be used for this type of transaction.\nNext Steps: The customer should use an alternate card and contact their bank."),
  ("INSUFFICIENT_FUNDS", "Error: The customer’s bank declined the transaction due to insufficient funds in their account\nNext Steps: The customer should use an alternate card or transfer some funds."),
  ("UNKNOWN", "Error: The customer’s bank declined the transaction for an unknown reason.\nNext Steps: The customer should try again or contact their bank."),
  ("TOO_MANY_RETRIES", "Error: The customer’s bank declined the transaction due to too many recent transactions failing to process.\nNext Steps: The customer should use an alternate card or contact their bank."),
  ("TIMED_OUT", "Error: The customer’s bank declined the transaction because it took too long to process.\nNext Steps: Retry the transaction. If this error persists, contact Trent."),
  ("NOT_SUPPORTED", "Error: The customer’s bank declined the transaction because the card does not support this type of transaction.\nNext Steps: The customer should use an alternate card and contact their bank."),
  ("CANCELLED", "Error: The customer’s bank declined the transaction because the customer cancelled the transaction.\nNext Steps: The customer should try again."),
  ("BLOCKED", "Error: The customer’s bank declined the transaction because the card does not support this type of transaction.\nNext Steps: The customer should use an alternate card and contact their bank."),
  ("SECURE_3D_AUTH_FAILED", "Error: The customer’s bank declined the transaction because the card has security requirements that prevent it from being used for this transaction.\nNext Steps: The customer should use an alternate card and contact their bank."),
  ("OTHER", "Error: The customer’s bank declined the transaction for an unknown reason.\nNext Steps: The customer should contact their bank for more information.")]

/-- Membership test of the dict, `payment.declineReason in response_codes`,
followed by the lookup `response_codes[payment.declineReason]`. -/
def lookupResponseCode (code : String) : Option String :=
  (response_codes.find? (fun p => p.1 == code)).map (fun p => p.2)

/-- The classification performed at the orchestrator's call site: the
table entry when the decline reason is a known key, otherwise the
generic unknown-status message built from the payment status. -/
def classify (paymentStatus declineReason : String) : String :=
  match lookupResponseCode declineReason with
  | some m => m
  | none => "Error: The payment status is unknown (" ++ paymentStatus ++ ")"

/-! ### Ledger poster (`apply_payment`, main.py lines 837-968)

The source opens a psycopg2 connection (autocommit off, so every
statement joins one implicit transaction), reads the account row and its
location key, executes the `transactiongroup` insert, the `transaction`
insert, the balance `UPDATE` and the `transactiongroupnote` insert, and
only then calls `conn.commit()`; failure on any step raises into the
`except IndexError` / `except BaseException` handlers, which log, alert,
and return without committing, so none of the staged statements become
visible.  We model the database as explicit state, the statements of the
posting as staged `Write`s that only take effect at the commit point, and
an exception at each database step by a Boolean failure flag.  Date and
timestamp columns, which carry wall-clock values and are inspected by no
claim, are omitted from the row models; the operator identity and host
name read for the audit note are fields of an `Env` parameter. -/

/-- A row of `public.transactiongroup` as inserted by the source (the
fixed `type`/`usr`/flag columns and the dates are omitted). -/
structure GroupRow where
  account : Nat
  reference : String
  amount : ℚ
  running_balance : ℚ
  location_key : Nat
  group_id : Nat
  deriving DecidableEq, Repr

/-- A row of `public.transaction` as inserted by the source. -/
structure DetailRow where
  transaction_group : Nat
  account : Nat
  reference : String
  amount : ℚ
  balance : ℚ
  location_key : Nat
  deriving DecidableEq, Repr

/-- A row of `transactiongroupnote` as inserted by the source. -/
structure NoteRow where
  transaction_group : Nat
  note : String
  deriving DecidableEq, Repr

/-- The external ledger database state touched by the program: account
balances keyed by `acct`, location keys keyed by account, the three
tables written by a posting, and the next value of the
`transaction_group` sequence. -/
structure DB where
  accounts : List (Nat × ℚ)
  locations : List (Nat × Nat)
  groups : List GroupRow
  details : List DetailRow
  notes : List NoteRow
  nextGroupId : Nat
  deriving DecidableEq, Repr

/-- Ambient machine state read by the source: `get_display_name(3)` and
`os.environ["COMPUTERNAME"]`. -/
structure Env where
  user : String
  computer : String
  deriving DecidableEq, Repr

/-- One flag per database step of the posting; `true` means the
corresponding call raises (connection refused, schema mismatch, … —
any exception lands in the source's catch-all handlers). -/
structure FailSpec where
  failConnect : Bool
  failSelectAccount : Bool
  failSelectLocation : Bool
  failInsertGroup : Bool
  failInsertDetail : Bool
  failUpdateBalance : Bool
  failInsertNote : Bool
  failCommit : Bool
  deriving DecidableEq, Repr

/-- A statement staged inside the posting transaction. -/
inductive Write where
  | insertGroup (g : GroupRow)
  | insertDetail (d : DetailRow)
  | updateBalance (acct : Nat) (newBalance : ℚ)
  | insertNote (n : NoteRow)
  deriving DecidableEq, Repr

/-- Effect of one committed statement on the database. -/
def applyWrite (db : DB) : Write → DB
  | .insertGroup g => { db with groups := db.groups ++ [g], nextGroupId := db.nextGroupId + 1 }
  | .insertDetail d => { db with details := db.details ++ [d] }
  | .updateBalance a nb =>
      { db with accounts := db.accounts.map (fun p => if p.1 = a then (p.1, nb) else p) }
  | .insertNote n => { db with notes := db.notes ++ [n] }

/-- `conn.commit()`: make the staged statements visible, in order. -/
def commitWrites (db : DB) (ws : List Write) : DB := ws.foldl applyWrite db

/-- `SELECT * FROM account WHERE acct = {account}` projected to the
balance column `row[10]`. -/
def lookupAcct (db : DB) (a : Nat) : Option ℚ :=
  (db.accounts.find? (fun p => p.1 == a)).map (fun p => p.2)

/-- `SELECT * FROM location WHERE account = {row[0]}` projected to the
location key column. -/
def lookupLocation (db : DB) (a : Nat) : Option Nat :=
  (db.locations.find? (fun p => p.1 == a)).map (fun p => p.2)

/-- Python `str.isnumeric` restricted to ASCII digit content. -/
def isNumericStr (s : String) : Bool := s.length != 0 && s.data.all Char.isDigit

/-- Numeric value of a digit string, as the SQL integer comparison
against `acct` reads it. -/
def strToNat (s : String) : Nat := s.data.foldl (fun n c => n * 10 + charDigitVal c) 0

/-- The source's `DEBUG` flag (main.py line 74). -/
def DEBUG : Bool := false

/-- Message of the sentinel-account exempt path. -/
def exemptMessage (authCode : String) : String :=
  "Payment successful.\nReference: " ++ authCode

/-- Message returned when the account is missing and by every exception
handler of `apply_payment`. -/
def notFoundMessage (account authCode : String) : String :=
  "Payment successful, but account " ++ account ++ " not found.\nReference: " ++ authCode

/-- Message of a successfully applied posting. -/
def appliedMessage (account authCode : String) : String :=
  "Payment successful and applied to account " ++ account ++ ".\nReference: " ++ authCode

/-- The pushover alert body sent on the not-found and failure paths.
(The rendering of the amount is abstracted by `toString`; the source
interpolates Python's float formatting, which no claim inspects.) -/
def notFoundAlert (account authCode : String) (amount : ℚ) : String :=
  "Account " ++ account ++ " not found. Reference: " ++ authCode
    ++ " Amount: " ++ toString amount ++ "\n"

/-- Observable outcome of `apply_payment`: the returned message, the
visible database afterwards, the alerts pushed, and whether a line was
appended to the failure log. -/
structure PostResult where
  message : String
  db : DB
  alerts : List String
  failureLogged : Bool
  deriving DecidableEq, Repr

/-- Shared body of the `except IndexError` and `except BaseException`
handlers of `apply_payment`: append to the failure log, push the
not-found alert, return the not-found message; the transaction is never
committed, so the visible database is the original one. -/
def postFailureResult (db : DB) (account authCode : String) (amount : ℚ) : PostResult :=
  { message := notFoundMessage account authCode
    db := db
    alerts := [notFoundAlert account authCode amount]
    failureLogged := true }

/-- The ledger poster, faithful to main.py lines 837-968: sentinel check,
connect, `float` conversion, numeric check, account lookup (absent
account → not-found message plus alert), balance computation in binary64,
location lookup, the three inserts and the balance update staged in one
transaction, commit, and the catch-all handlers mapping every raised step
to `postFailureResult`. -/
def apply_payment (env : Env) (db : DB) (fs : FailSpec)
    (account authCode : String) (amount : ℚ) : PostResult :=
  let authCode := if DEBUG then "TESTING" else authCode
  if account == "00000" then
    { message := exemptMessage authCode, db := db, alerts := [], failureLogged := false }
  else if fs.failConnect then postFailureResult db account authCode amount
  else
    let amount := roundDouble amount
    if isNumericStr account then
      if fs.failSelectAccount then postFailureResult db account authCode amount
      else
        match lookupAcct db (strToNat account) with
        | none =>
          { message := notFoundMessage account authCode, db := db,
            alerts := [notFoundAlert account authCode amount], failureLogged := false }
        | some original_balance =>
          let new_balance := pySub (roundDouble original_balance) amount
          if fs.failSelectLocation then postFailureResult db account authCode amount
          else
            match lookupLocation db (strToNat account) with
            | none => postFailureResult db account authCode amount
            | some location_key =>
              if fs.failInsertGroup then postFailureResult db account authCode amount
              else
                let trxid := db.nextGroupId
                let g : GroupRow :=
                  { account := strToNat account, reference := authCode,
                    amount := -amount, running_balance := new_balance,
                    location_key := location_key, group_id := trxid }
                if fs.failInsertDetail then postFailureResult db account authCode amount
                else
                  let d : DetailRow :=
                    { transaction_group := trxid, account := strToNat account,
                      reference := authCode, amount := amount,
                      balance := new_balance, location_key := location_key }
                  if fs.failUpdateBalance then postFailureResult db account authCode amount
                  else
                    let n : NoteRow :=
                      { transaction_group := trxid,
                        note := "Payment applied by " ++ env.user ++ " on " ++ env.computer }
                    if fs.failInsertNote then postFailureResult db account authCode amount
                    else if fs.failCommit then postFailureResult db account authCode amount
                    else
                      { message := appliedMessage account authCode,
                        db := commitWrites db
                          [Write.insertGroup g, Write.insertDetail d,
                           Write.updateBalance (strToNat account) new_balance,
                           Write.insertNote n],
                        alerts := [], failureLogged := false }
    else
      { message := notFoundMessage account authCode, db := db,
        alerts := [notFoundAlert account authCode amount], failureLogged := false }

/-- `true` iff no database step of the posting raises. -/
def noFail (fs : FailSpec) : Bool :=
  !fs.failConnect && !fs.failSelectAccount && !fs.failSelectLocation
    && !fs.failInsertGroup && !fs.failInsertDetail && !fs.failUpdateBalance
    && !fs.failInsertNote && !fs.failCommit

/-- `true` iff the posting reaches its commit: no step raises, the
account id is numeric, and both the account row and its location key
exist. -/
def postingSucceedsB (db : DB) (fs : FailSpec) (account : String) : Bool :=
  noFail fs && isNumericStr account
    && (lookupAcct db (strToNat account)).isSome
    && (lookupLocation db (strToNat account)).isSome

/-- Sample ambient state for concrete runs. -/
def sampleEnv : Env := { user := "operator", computer := "TILL-1" }

/-- Sample ledger: account 12345 with balance 0.30 and location key 7. -/
def sampleDB : DB :=
  { accounts := [(12345, 3/10)], locations := [(12345, 7)],
    groups := [], details := [], notes := [], nextGroupId := 1 }

/-- Sample ledger with no accounts at all. -/
def sampleDBEmpty : DB :=
  { accounts := [], locations := [], groups := [], details := [], notes := [],
    nextGroupId := 1 }

/-- No database step raises. -/
def noFailSpec : FailSpec := ⟨false, false, false, false, false, false, false, false⟩

/-- The balance `UPDATE` raises (after both inserts were attempted). -/
def failUpdateSpec : FailSpec := ⟨false, false, false, false, false, true, false, false⟩

/-! ### Python substring containment (`"applied to account" not in message`)

The orchestrator decides whether to copy the authorization code to the
clipboard by a substring test on the poster's message (main.py line
1074).  `containsB needle hay` models Python's `needle in hay`. -/

/-- `true` iff the first list is an initial segment of the second. -/
def isPrefixB : List Char → List Char → Bool
  | [], _ => true
  | _ :: _, [] => false
  | a :: as, b :: bs => a == b && isPrefixB as bs

/-- `true` iff the first list is a final segment of the second. -/
def isSuffixB (s l : List Char) : Bool := isPrefixB s.reverse l.reverse

/-- `true` iff the first list occurs contiguously inside the second. -/
def containsB (needle : List Char) : List Char → Bool
  | [] => needle.isEmpty
  | c :: rest => isPrefixB needle (c :: rest) || containsB needle rest

/-- Python's `needle in hay` on strings. -/
def containsPhrase (needle hay : String) : Bool := containsB needle.data hay.data

/-! ### Payment orchestrator (`process_payment`, main.py lines 970-1280)

The source parses the amount (stripping `$`, `decimal.Decimal * 100`,
`int`), rejects amounts over 300000 cents before any gateway call (event
log, pushover alert, dialog, a `DECLINED` journal row), otherwise calls
the gateway and dispatches on the result: `APPROVED` journals an
`APPROVED` row with the auth code, invokes `apply_payment` on the leading
token of the customer field with `amount / 100`, and copies the auth code
to the clipboard exactly when the poster's message does not contain
`"applied to account"`; `DECLINED` with a known reason journals the
classified text; unknown reasons and unknown statuses journal
`"unknown"`; `simplify.BadRequestError` journals the
`INVALID_CARD_NUMBER` classification; every other exception (gateway
connection faults included) falls into the final `except BaseException`
handler, which shows a generic dialog, alerts, and appends to the failure
log but writes **no** journal row.  The `decimal.Decimal` parse is an
external library call, modelled by the already-parsed optional cents
value (`none` = the parse raised); the gateway is modelled by its
response.  The dead `psycopg2` handlers (unreachable because
`apply_payment` catches everything) are not modelled. -/

/-- Form fields read by the orchestrator. -/
structure Inputs where
  customerText : String
  amountText : String
  deriving DecidableEq, Repr

/-- Outcome of the gateway call `simplify.Payment.create`: a response
object, a structured bad-request fault, or any other raised error
(connection failure, timeout, …). -/
inductive GatewayResponse where
  | ok (paymentStatus declineReason authCode : String)
  | badRequest (msg : String)
  | fault (msg : String)
  deriving DecidableEq, Repr

/-- One row appended to `U:/POS/transactions.csv`. -/
structure JournalEntry where
  customer : String
  amountText : String
  outcome : String
  timestamp : Nat
  authCode : Option String
  deriving DecidableEq, Repr

/-- Observable outcome of one `process_payment` run. -/
structure PPResult where
  dialog : String
  journal : List JournalEntry
  alerts : List String
  gatewayCalled : Bool
  clipboard : Option String
  db : DB
  fieldsReset : Bool
  failureLogged : Bool
  deriving DecidableEq, Repr

/-- The customer column of a journal row: `"None"` when the customer
field is empty. -/
def journalName (c : String) : String := if c == "" then "None" else c

/-- `customerInput.text().split(" ")[0]`: everything before the first
space (the whole string when it has no space; `""` for the empty
string, exactly as Python's `"".split(" ")[0]`). -/
def firstToken (s : String) : String := ⟨s.data.takeWhile (fun c => c ≠ ' ')⟩

/-- Generic dialog text of the catch-all handler. -/
def genericErrorDialog : String :=
  "An error has occurred. Please check your inputs and try again.     "

/-- The payment orchestrator, faithful to main.py lines 970-1280. -/
def process_payment (env : Env) (db : DB) (fs : FailSpec) (inp : Inputs)
    (amountCents : Option ℤ) (gw : GatewayResponse) (now : Nat) : PPResult :=
  match amountCents with
  | none =>
    { dialog := genericErrorDialog, journal := [],
      alerts := ["Payment Failed: amount parse error"], gatewayCalled := false,
      clipboard := none, db := db, fieldsReset := false, failureLogged := true }
  | some amount =>
    if amount > 300000 then
      { dialog := "Error: This amount is too large. Please use the physical machine.",
        journal := [{ customer := journalName inp.customerText,
                      amountText := inp.amountText, outcome := "DECLINED",
                      timestamp := now, authCode := none }],
        alerts := ["Payment declined due to excessive amount. Amount was: $"
          ++ toString (pyDiv100 amount)],
        gatewayCalled := false, clipboard := none, db := db,
        fieldsReset := false, failureLogged := false }
    else
      match gw with
      | .ok paymentStatus declineReason authCode =>
        if paymentStatus == "APPROVED" then
          let applied := apply_payment env db fs (firstToken inp.customerText)
            authCode (pyDiv100 amount)
          { dialog := applied.message,
            journal := [{ customer := journalName inp.customerText,
                          amountText := inp.amountText, outcome := "APPROVED",
                          timestamp := now, authCode := some authCode }],
            alerts := applied.alerts, gatewayCalled := true,
            clipboard := if containsPhrase "applied to account" applied.message
              then none else some authCode,
            db := applied.db, fieldsReset := true,
            failureLogged := applied.failureLogged }
        else if paymentStatus == "DECLINED" then
          match lookupResponseCode declineReason with
          | some m =>
            { dialog := m,
              journal := [{ customer := journalName inp.customerText,
                            amountText := inp.amountText,
                            outcome := "DECLINED - " ++ m,
                            timestamp := now, authCode := none }],
              alerts := [], gatewayCalled := true, clipboard := none, db := db,
              fieldsReset := false, failureLogged := false }
          | none =>
            { dialog := "Error: The payment status is unknown ("
                ++ paymentStatus ++ ")",
              journal := [{ customer := journalName inp.customerText,
                            amountText := inp.amountText, outcome := "unknown",
                            timestamp := now, authCode := none }],
              alerts := ["Payment failed. Unknown error.\n" ++ paymentStatus],
              gatewayCalled := true, clipboard := none, db := db,
              fieldsReset := false, failureLogged := false }
        else
          { dialog := "Error: The payment status is unknown ("
              ++ paymentStatus ++ ")",
            journal := [{ customer := journalName inp.customerText,
                          amountText := inp.amountText, outcome := "unknown",
                          timestamp := now, authCode := none }],
            alerts := [], gatewayCalled := true, clipboard := none, db := db,
            fieldsReset := false, failureLogged := false }
      | .badRequest msg =>
        { dialog := (lookupResponseCode "INVALID_CARD_NUMBER").getD "",
          journal := [{ customer := journalName inp.customerText,
                        amountText := inp.amountText,
                        outcome := "DECLINED - "
                          ++ (lookupResponseCode "INVALID_CARD_NUMBER").getD "",
                        timestamp := now, authCode := none }],
          alerts := ["Payment Failed: " ++ msg], gatewayCalled := true,
          clipboard := none, db := db, fieldsReset := false,
          failureLogged := false }
      | .fault msg =>
        { dialog := genericErrorDialog, journal := [],
          alerts := ["Payment Failed: " ++ msg], gatewayCalled := true,
          clipboard := none, db := db, fieldsReset := false,
          failureLogged := true }

/-- Journal rows a run appends, by outcome path: one on every classified
outcome, none when the run ends in the catch-all handler (amount parse
failure, or a gateway fault other than a structured bad request). -/
def expectedJournalCount : Option ℤ → GatewayResponse → Nat
  | none, _ => 0
  | some c, gw =>
    if c > 300000 then 1
    else match gw with
      | .fault _ => 0
      | _ => 1

/-- On an all-digit character list, `digitsOfList` returns the digit
values; otherwise it returns `none`. -/
theorem digitsOfList_eq (l : List Char) :
    digitsOfList l =
      (if l.all Char.isDigit then some (l.map charDigitVal) else none) := by
  induction l with
  | nil => simp [digitsOfList]
  | cons c cs ih =>
    by_cases hc : c.isDigit
    · by_cases hcs : cs.all Char.isDigit <;>
        simp [digitsOfList, hc, ih, hcs]
    · simp [digitsOfList, hc]

/-- The two-pass doubling-then-adjusting sum of the source equals the
fused Luhn sum of the claim, on the same digit list. -/
theorem code_sum_eq (l : List Char) :
    ((((l.reverse.map charDigitVal).enum.map
          (fun p => if p.1 % 2 = 1 then p.2 * 2 else p.2)).map
        (fun i => if i > 9 then i - 9 else i)).foldl (· + ·) 0)
      = luhnSpecSum (l.map charDigitVal) := by
  unfold luhnSpecSum
  simp [List.map_map, Function.comp_def, List.map_reverse]

/-- `check_card` in closed form: on an all-digit (after space stripping)
input it decides the Luhn condition together with the length-16 check;
on any other input it takes the exception path. -/
theorem check_card_eq (s : String) :
    check_card s =
      (if (stripSpaces s).data.all Char.isDigit then
        some (decide (luhnSpecSum ((stripSpaces s).data.map charDigitVal) % 10 = 0
          ∧ (stripSpaces s).length = 16))
      else none) := by
  by_cases h : (stripSpaces s).data.all Char.isDigit
  · have h' : (stripSpaces s).data.reverse.all Char.isDigit = true := by
      simpa using h
    simp only [check_card, digitsOfList_eq, h', if_true, h]
    rw [← code_sum_eq (stripSpaces s).data]
  · have h' : ¬ (stripSpaces s).data.reverse.all Char.isDigit = true := by
      simpa using h
    simp [check_card, digitsOfList_eq, h', h]

/-- C3: for every input string, `check_card` strips spaces and marks the
card valid exactly when the stripped string consists of exactly 16 digits
whose Luhn sum (reverse, double odd 0-based indices of the reversed
sequence, subtract 9 from doubled values over 9, sum) is divisible by 10;
and on digit content of any other length it marks the card invalid. -/
theorem check_card_luhn_correct (s : String) :
    (check_card s = some true ↔ luhnSpecValid s = true) ∧
    ((stripSpaces s).data.all Char.isDigit = true →
      (stripSpaces s).length ≠ 16 → check_card s = some false) := by
  have hc := check_card_eq s
  constructor
  · rw [hc]
    by_cases h : (stripSpaces s).data.all Char.isDigit
    · simp [h, luhnSpecValid, Bool.and_assoc, and_comm]
    · simp [h, luhnSpecValid, by simpa using h]
  · intro hd hlen
    rw [hc]
    simp [hd, hlen]

/-- Witness for C3 at a concrete input: the all-digit string `"12345"`
has length 5, not 16, and is marked invalid. -/
theorem check_card_luhn_correct_witness : check_card "12345" = some false :=
  (check_card_luhn_correct "12345").2 (by decide) (by decide)

/-- In an association list whose keys are pairwise distinct, `find?` on a
member's key returns that member. -/
theorem find?_key_of_mem {l : List (String × String)} {p : String × String}
    (hm : p ∈ l) (hn : (l.map Prod.fst).Nodup) :
    l.find? (fun q => q.1 == p.1) = some p := by
  induction l with
  | nil => cases hm
  | cons a t ih =>
    rcases List.mem_cons.mp hm with he | hm'
    · subst he
      simp [List.find?]
    · have hne : ¬ a.1 = p.1 := by
        intro he
        exact (List.nodup_cons.mp hn).1 (he ▸ List.mem_map_of_mem Prod.fst hm')
      have hb : (a.1 == p.1) = false := by simpa using hne
      simp only [List.find?, hb]
      exact ih hm' (List.nodup_cons.mp hn).2

/-- Every message in the table is non-empty. -/
theorem response_codes_values_nonempty :
    ∀ p ∈ response_codes, p.2 ≠ "" := by decide

set_option maxRecDepth 4096 in
/-- The keys of the table are pairwise distinct. -/
theorem response_codes_keys_nodup : (response_codes.map Prod.fst).Nodup := by
  decide

/-- C7: the classification is total — for every payment status and every
decline reason string, including unrecognized ones, it yields a non-empty
message — and on each known code of the table it yields exactly the fixed
mapped message. -/
theorem classify_total_and_exact :
    (∀ st r : String, classify st r ≠ "") ∧
    (∀ p ∈ response_codes, ∀ st : String, classify st p.1 = p.2) := by
  constructor
  · intro st r
    unfold classify lookupResponseCode
    cases hf : response_codes.find? (fun p => p.1 == r) with
    | none =>
      simp only [Option.map_none']
      intro h
      have hlen : ("Error: The payment status is unknown (" ++ st ++ ")").length = 0 := by
        rw [h]; rfl
      rw [String.length_append, String.length_append] at hlen
      have hone : (")" : String).length = 1 := rfl
      omega
    | some q =>
      have hq : q ∈ response_codes := List.mem_of_find?_eq_some hf
      simpa using response_codes_values_nonempty q hq
  · intro p hp st
    unfold classify lookupResponseCode
    rw [find?_key_of_mem hp response_codes_keys_nodup]
    rfl

set_option maxRecDepth 8192 in
/-- Witness for C7 at a concrete known code: `INSUFFICIENT_FUNDS` maps to
its fixed explanation and next step. -/
theorem classify_total_and_exact_witness :
    classify "DECLINED" "INSUFFICIENT_FUNDS"
      = "Error: The customer’s bank declined the transaction due to insufficient funds in their account\nNext Steps: The customer should use an alternate card or transfer some funds." :=
  classify_total_and_exact.2
    ("INSUFFICIENT_FUNDS",
      "Error: The customer’s bank declined the transaction due to insufficient funds in their account\nNext Steps: The customer should use an alternate card or transfer some funds.")
    (by decide) "DECLINED"

/-- C5: for every payment with the sentinel account id `"00000"`, the
ledger poster returns immediately — for every database state, every
failure pattern (including a refused connection) and every amount, the
visible database is exactly the input one, no alert and no log line is
produced, and the returned outcome is the success message carrying the
original authorization code. -/
theorem apply_payment_sentinel (env : Env) (db : DB) (fs : FailSpec)
    (authCode : String) (amount : ℚ) :
    apply_payment env db fs "00000" authCode amount =
      { message := "Payment successful.\nReference: " ++ authCode,
        db := db, alerts := [], failureLogged := false } := rfl

/-- The posting on its all-steps-succeed path, in closed form: the four
statements of the transaction are staged and committed, and the applied
message is returned. -/
theorem apply_payment_success_eq (env : Env) (db : DB) (fs : FailSpec)
    (account authCode : String) (amount : ℚ) (b : ℚ) (lk : Nat)
    (hne : (account == "00000") = false)
    (hnum : isNumericStr account = true)
    (hb : lookupAcct db (strToNat account) = some b)
    (hlk : lookupLocation db (strToNat account) = some lk)
    (hf : noFail fs = true) :
    apply_payment env db fs account authCode amount =
      { message := appliedMessage account authCode,
        db := commitWrites db
          [Write.insertGroup
            { account := strToNat account, reference := authCode,
              amount := -(roundDouble amount),
              running_balance := pySub (roundDouble b) (roundDouble amount),
              location_key := lk, group_id := db.nextGroupId },
           Write.insertDetail
            { transaction_group := db.nextGroupId, account := strToNat account,
              reference := authCode, amount := roundDouble amount,
              balance := pySub (roundDouble b) (roundDouble amount),
              location_key := lk },
           Write.updateBalance (strToNat account)
             (pySub (roundDouble b) (roundDouble amount)),
           Write.insertNote
            { transaction_group := db.nextGroupId,
              note := "Payment applied by " ++ env.user ++ " on " ++ env.computer }],
        alerts := [], failureLogged := false } := by
  have hfc := hf
  unfold noFail at hfc
  simp only [Bool.and_eq_true, Bool.not_eq_true'] at hfc
  obtain ⟨⟨⟨⟨⟨⟨⟨h1, h2⟩, h3⟩, h4⟩, h5⟩, h6⟩, h7⟩, h8⟩ := hfc
  simp only [apply_payment, hne, hnum, hb, hlk, h1, h2, h3, h4, h5, h6, h7, h8,
    DEBUG, Bool.false_eq_true, if_false, if_true]

/-- Every run of the poster on a non-sentinel account that does not reach
the commit — any raising step, a non-numeric account id, or a missing
account or location row — returns the not-found message and leaves the
database exactly as it was (the transaction is never committed). -/
theorem apply_payment_failure_eq (env : Env) (db : DB) (fs : FailSpec)
    (account authCode : String) (amount : ℚ)
    (hne : (account == "00000") = false)
    (h : postingSucceedsB db fs account = false) :
    (apply_payment env db fs account authCode amount).message
        = notFoundMessage account authCode
      ∧ (apply_payment env db fs account authCode amount).db = db := by
  by_cases h1 : fs.failConnect = true
  · simp only [apply_payment, hne, h1, DEBUG, Bool.false_eq_true, if_false, if_true,
      postFailureResult]
    exact ⟨by trivial, by trivial⟩
  · have h1' : fs.failConnect = false := by simpa using h1
    by_cases hnum : isNumericStr account = true
    · by_cases h2 : fs.failSelectAccount = true
      · simp only [apply_payment, hne, h1', h2, hnum, DEBUG, Bool.false_eq_true,
          if_false, if_true, postFailureResult]
        exact ⟨by trivial, by trivial⟩
      · have h2' : fs.failSelectAccount = false := by simpa using h2
        cases hacct : lookupAcct db (strToNat account) with
        | none =>
          simp only [apply_payment, hne, h1', h2', hnum, hacct, DEBUG,
            Bool.false_eq_true, if_false, if_true]
          exact ⟨by trivial, by trivial⟩
        | some b =>
          by_cases h3 : fs.failSelectLocation = true
          · simp only [apply_payment, hne, h1', h2', h3, hnum, hacct, DEBUG,
              Bool.false_eq_true, if_false, if_true, postFailureResult]
            exact ⟨by trivial, by trivial⟩
          · have h3' : fs.failSelectLocation = false := by simpa using h3
            cases hlk : lookupLocation db (strToNat account) with
            | none =>
              simp only [apply_payment, hne, h1', h2', h3', hnum, hacct, hlk, DEBUG,
                Bool.false_eq_true, if_false, if_true, postFailureResult]
              exact ⟨by trivial, by trivial⟩
            | some lk =>
              by_cases h4 : fs.failInsertGroup = true
              · simp only [apply_payment, hne, h1', h2', h3', h4, hnum, hacct, hlk,
                  DEBUG, Bool.false_eq_true, if_false, if_true, postFailureResult]
                exact ⟨by trivial, by trivial⟩
              · have h4' : fs.failInsertGroup = false := by simpa using h4
                by_cases h5 : fs.failInsertDetail = true
                · simp only [apply_payment, hne, h1', h2', h3', h4', h5, hnum, hacct,
                    hlk, DEBUG, Bool.false_eq_true, if_false, if_true, postFailureResult]
                  exact ⟨by trivial, by trivial⟩
                · have h5' : fs.failInsertDetail = false := by simpa using h5
                  by_cases h6 : fs.failUpdateBalance = true
                  · simp only [apply_payment, hne, h1', h2', h3', h4', h5', h6, hnum,
                      hacct, hlk, DEBUG, Bool.false_eq_true, if_false, if_true,
                      postFailureResult]
                    exact ⟨by trivial, by trivial⟩
                  · have h6' : fs.failUpdateBalance = false := by simpa using h6
                    by_cases h7 : fs.failInsertNote = true
                    · simp only [apply_payment, hne, h1', h2', h3', h4', h5', h6', h7,
                        hnum, hacct, hlk, DEBUG, Bool.false_eq_true, if_false, if_true,
                        postFailureResult]
                      exact ⟨by trivial, by trivial⟩
                    · have h7' : fs.failInsertNote = false := by simpa using h7
                      by_cases h8 : fs.failCommit = true
                      · simp only [apply_payment, hne, h1', h2', h3', h4', h5', h6',
                          h7', h8, hnum, hacct, hlk, DEBUG, Bool.false_eq_true,
                          if_false, if_true, postFailureResult]
                        exact ⟨by trivial, by trivial⟩
                      · have h8' : fs.failCommit = false := by simpa using h8
                        exfalso
                        have hsucc : postingSucceedsB db fs account = true := by
                          simp [postingSucceedsB, noFail, h1', h2', h3', h4', h5', h6',
                            h7', h8', hnum, hacct, hlk]
                        rw [hsucc] at h
                        exact Bool.true_eq_false ▸ h
    · have hnum' : isNumericStr account = false := by simpa using hnum
      simp only [apply_payment, hne, h1', hnum', DEBUG, Bool.false_eq_true,
        if_false, if_true]
      exact ⟨by trivial, by trivial⟩

/-- C1: the posting is atomic.  The visible database after any run is
either exactly the initial one or the initial one with precisely the four
staged statements (group-header insert, detail-row insert, balance
update, audit-note insert) committed together; and whenever any step of
the posting fails after earlier steps were attempted — any insert, the
balance update, the note, or the commit itself — the visible database,
account balance included, is unchanged and no rows from the attempt
remain. -/
theorem apply_payment_atomic (env : Env) (db : DB) (fs : FailSpec)
    (account authCode : String) (amount : ℚ) :
    ((apply_payment env db fs account authCode amount).db = db ∨
      ∃ g d a nb n,
        (apply_payment env db fs account authCode amount).db
          = commitWrites db [Write.insertGroup g, Write.insertDetail d,
              Write.updateBalance a nb, Write.insertNote n]) ∧
    (fs.failInsertGroup = true ∨ fs.failInsertDetail = true ∨
        fs.failUpdateBalance = true ∨ fs.failInsertNote = true ∨
        fs.failCommit = true →
      (apply_payment env db fs account authCode amount).db = db) := by
  constructor
  · by_cases hs : (account == "00000") = true
    · left
      have ha : account = "00000" := by simpa using hs
      subst ha
      rfl
    · have hne : (account == "00000") = false := by simpa using hs
      by_cases hp : postingSucceedsB db fs account = true
      · right
        have hp' := hp
        unfold postingSucceedsB at hp'
        simp only [Bool.and_eq_true] at hp'
        obtain ⟨⟨⟨hf, hnum⟩, hb'⟩, hlk'⟩ := hp'
        obtain ⟨b, hb⟩ := Option.isSome_iff_exists.mp hb'
        obtain ⟨lk, hlk⟩ := Option.isSome_iff_exists.mp hlk'
        exact ⟨_, _, _, _, _, by
          rw [apply_payment_success_eq env db fs account authCode amount b lk
            hne hnum hb hlk hf]⟩
      · have hp' : postingSucceedsB db fs account = false := by simpa using hp
        exact Or.inl
          (apply_payment_failure_eq env db fs account authCode amount hne hp').2
  · intro hflag
    by_cases hs : (account == "00000") = true
    · have ha : account = "00000" := by simpa using hs
      subst ha
      rfl
    · have hne : (account == "00000") = false := by simpa using hs
      have hp' : postingSucceedsB db fs account = false := by
        unfold postingSucceedsB noFail
        rcases hflag with h | h | h | h | h <;> simp [h]
      exact (apply_payment_failure_eq env db fs account authCode amount hne hp').2

/-- Witness for C1 at a concrete input: account 12345 exists, both inserts
are attempted, the balance update raises — the visible database afterwards
is exactly the initial one. -/
theorem apply_payment_atomic_witness :
    (apply_payment sampleEnv sampleDB failUpdateSpec "12345" "AUTH1"
        (pyDiv100 20)).db = sampleDB :=
  (apply_payment_atomic sampleEnv sampleDB failUpdateSpec "12345" "AUTH1"
      (pyDiv100 20)).2
    (Or.inr (Or.inr (Or.inl rfl)))

/-- C9: the ledger poster is total over the modelled failure modes and
collapses them all into one outcome: on a non-sentinel account, whenever
the posting does not reach its commit — account genuinely absent, account
id non-numeric, or any database step raising — the returned value is the
same "account not found" message carrying the authorization code and the
database is untouched; two such runs are indistinguishable in the value
returned to the orchestrator. -/
theorem apply_payment_failure_uniform_message (env₁ env₂ : Env) (db₁ db₂ : DB)
    (fs₁ fs₂ : FailSpec) (account authCode : String) (amt₁ amt₂ : ℚ)
    (hne : (account == "00000") = false)
    (h₁ : postingSucceedsB db₁ fs₁ account = false)
    (h₂ : postingSucceedsB db₂ fs₂ account = false) :
    (apply_payment env₁ db₁ fs₁ account authCode amt₁).message
        = notFoundMessage account authCode
      ∧ (apply_payment env₂ db₂ fs₂ account authCode amt₂).message
        = (apply_payment env₁ db₁ fs₁ account authCode amt₁).message
      ∧ (apply_payment env₁ db₁ fs₁ account authCode amt₁).db = db₁ := by
  have a1 := apply_payment_failure_eq env₁ db₁ fs₁ account authCode amt₁ hne h₁
  have a2 := apply_payment_failure_eq env₂ db₂ fs₂ account authCode amt₂ hne h₂
  exact ⟨a1.1, by rw [a1.1, a2.1], a1.2⟩

/-- Witness for C9 at concrete inputs: a run against a ledger without the
account (AccountNotFound) and a run in which the balance update raises
after the inserts (PostingFailed) both return the same not-found message
carrying the authorization code. -/
theorem apply_payment_failure_uniform_message_witness :
    (apply_payment sampleEnv sampleDBEmpty noFailSpec "12345" "AUTH1" (1/2)).message
        = notFoundMessage "12345" "AUTH1"
      ∧ (apply_payment sampleEnv sampleDB failUpdateSpec "12345" "AUTH1" (1/2)).message
        = (apply_payment sampleEnv sampleDBEmpty noFailSpec "12345" "AUTH1" (1/2)).message
      ∧ (apply_payment sampleEnv sampleDBEmpty noFailSpec "12345" "AUTH1" (1/2)).db
        = sampleDBEmpty :=
  apply_payment_failure_uniform_message sampleEnv sampleEnv sampleDBEmpty sampleDB
    noFailSpec failUpdateSpec "12345" "AUTH1" (1/2) (1/2)
    (by decide) (by decide) (by decide)

/-- `find?` after the balance-update map: the found pair keeps its key and
carries the new balance. -/
theorem find?_update (l : List (Nat × ℚ)) (a : Nat) (nb : ℚ) :
    (l.map (fun p => if p.1 = a then (p.1, nb) else p)).find? (fun p => p.1 == a)
      = (l.find? (fun p => p.1 == a)).map (fun p => (p.1, nb)) := by
  induction l with
  | nil => rfl
  | cons q t ih =>
    by_cases hq : q.1 = a
    · simp [List.find?_cons, hq, ih]
    · have hb : (q.1 == a) = false := by simpa using hq
      simp [List.find?_cons, hb, ih, hq]

/-- Reading the account balance after the four statements of a posting
are committed yields the updated balance (the three row inserts do not
touch the accounts table). -/
theorem lookupAcct_after_commit (db : DB) (g : GroupRow) (d : DetailRow)
    (a : Nat) (nb : ℚ) (n : NoteRow) :
    lookupAcct (commitWrites db [Write.insertGroup g, Write.insertDetail d,
        Write.updateBalance a nb, Write.insertNote n]) a
      = (lookupAcct db a).map (fun _ => nb) := by
  show lookupAcct
      { db with
        accounts := db.accounts.map (fun p => if p.1 = a then (p.1, nb) else p),
        groups := db.groups ++ [g], details := db.details ++ [d],
        notes := db.notes ++ [n], nextGroupId := db.nextGroupId + 1 } a
    = (lookupAcct db a).map (fun _ => nb)
  unfold lookupAcct
  rw [find?_update]
  cases db.accounts.find? (fun p => p.1 == a) <;> rfl

/-- C4 (amended): the new balance of an applied posting is computed in
IEEE binary64 floating point, not exact decimal — the stored balance is
`fl(fl(b) − fl(amount))` where `b` is the current balance, `fl` is
binary64 rounding, and the amount in major units enters exactly once as
`fl(cents / 100)` from the orchestrator's single cents-to-dollars
conversion; it equals the exact decimal difference only when no rounding
occurs. -/
theorem apply_payment_balance_binary64 (env : Env) (db : DB) (fs : FailSpec)
    (account authCode : String) (cents : ℤ) (b : ℚ) (lk : Nat)
    (hne : (account == "00000") = false)
    (hnum : isNumericStr account = true)
    (hb : lookupAcct db (strToNat account) = some b)
    (hlk : lookupLocation db (strToNat account) = some lk)
    (hf : noFail fs = true) :
    lookupAcct (apply_payment env db fs account authCode (pyDiv100 cents)).db
        (strToNat account)
      = some (pySub (roundDouble b) (roundDouble (pyDiv100 cents))) := by
  rw [apply_payment_success_eq env db fs account authCode (pyDiv100 cents) b lk
    hne hnum hb hlk hf]
  simp only []
  rw [lookupAcct_after_commit, hb]
  rfl

/-- Witness for the amended C4 at a concrete input: posting 50 dollars
against balance 0.30 stores `fl(fl(0.3) − fl(5000/100))`. -/
theorem apply_payment_balance_binary64_witness :
    lookupAcct (apply_payment sampleEnv sampleDB noFailSpec "12345" "AUTH1"
        (pyDiv100 5000)).db 12345
      = some (pySub (roundDouble (3/10)) (roundDouble (pyDiv100 5000))) :=
  apply_payment_balance_binary64 sampleEnv sampleDB noFailSpec "12345" "AUTH1"
    5000 (3/10) 7 (by decide) (by decide) rfl rfl (by decide)

/-- Counterexample to C4 as stated: with balance 0.30 and a 20-cent
payment, the stored new balance is the binary64 value
900719925474099 / 2^53 = 0.09999999999999997…, which differs from the
exact decimal `0.30 − 20/100 = 0.10` — the arithmetic is floating point,
not fixed-point decimal. -/
theorem apply_payment_balance_float_counterexample :
    lookupAcct (apply_payment sampleEnv sampleDB noFailSpec "12345" "AUTH1"
        (pyDiv100 20)).db 12345
      = some (900719925474099 / 2 ^ 53)
    ∧ (900719925474099 : ℚ) / 2 ^ 53 ≠ 3 / 10 - 20 / 100 :=
  ⟨by decide, by decide⟩

/-- String concatenation concatenates the character data. -/
theorem data_append (a b : String) : (a ++ b).data = a.data ++ b.data := rfl

theorem isPrefixB_iff (p l : List Char) :
    isPrefixB p l = true ↔ ∃ t, l = p ++ t := by
  induction p generalizing l with
  | nil => simp [isPrefixB]
  | cons a as ih =>
    cases l with
    | nil => simp [isPrefixB]
    | cons b bs =>
      simp only [isPrefixB, Bool.and_eq_true, beq_iff_eq, ih]
      constructor
      · rintro ⟨rfl, t, rfl⟩
        exact ⟨t, rfl⟩
      · rintro ⟨t, ht⟩
        obtain ⟨rfl, rfl⟩ : b = a ∧ bs = as ++ t := by
          constructor <;> [exact (List.cons.injEq .. ▸ ht).1;
            exact (List.cons.injEq .. ▸ ht).2]
        exact ⟨rfl, t, rfl⟩

theorem isSuffixB_iff (s l : List Char) :
    isSuffixB s l = true ↔ ∃ u, l = u ++ s := by
  unfold isSuffixB
  rw [isPrefixB_iff]
  constructor
  · rintro ⟨t, ht⟩
    refine ⟨t.reverse, ?_⟩
    have := congrArg List.reverse ht
    simpa using this
  · rintro ⟨u, rfl⟩
    exact ⟨u.reverse, by simp⟩

theorem containsB_iff (p l : List Char) :
    containsB p l = true ↔ ∃ u t, l = u ++ p ++ t := by
  induction l with
  | nil =>
    simp only [containsB, List.isEmpty_iff]
    constructor
    · rintro rfl
      exact ⟨[], [], rfl⟩
    · rintro ⟨u, t, ht⟩
      cases u <;> cases p <;> simp_all
  | cons c cs ih =>
    simp only [containsB, Bool.or_eq_true, isPrefixB_iff, ih]
    constructor
    · rintro (⟨t, h⟩ | ⟨u, t, rfl⟩)
      · exact ⟨[], t, by simpa using h⟩
      · exact ⟨c :: u, t, rfl⟩
    · rintro ⟨u, t, ht⟩
      cases u with
      | nil =>
        left
        exact ⟨t, by simpa using ht⟩
      | cons x xs =>
        right
        refine ⟨xs, t, ?_⟩
        have h1 : c = x ∧ cs = xs ++ p ++ t := by
          constructor <;> [exact (List.cons.injEq .. ▸ ht).1;
            exact (List.cons.injEq .. ▸ ht).2]
        exact h1.2

/-- An occurrence inside a left factor is an occurrence in the append. -/
theorem containsB_append_left (p l₁ l₂ : List Char)
    (h : containsB p l₁ = true) : containsB p (l₁ ++ l₂) = true := by
  rw [containsB_iff] at h ⊢
  obtain ⟨u, t, rfl⟩ := h
  exact ⟨u, t ++ l₂, by simp⟩

/-- Any occurrence in an append lies in the left part, lies in the right
part, or straddles the boundary: a nonempty proper prefix of the needle
is a suffix of the left part and the rest is a prefix of the right
part. -/
theorem containsB_append_cases {p l₁ l₂ : List Char}
    (h : containsB p (l₁ ++ l₂) = true) :
    containsB p l₁ = true ∨ containsB p l₂ = true ∨
      ∃ i, 0 < i ∧ i < p.length ∧ isSuffixB (p.take i) l₁ = true ∧
        isPrefixB (p.drop i) l₂ = true := by
  rw [containsB_iff] at h
  obtain ⟨u, t, ht⟩ := h
  rcases le_or_lt (u.length + p.length) l₁.length with hc | hc
  · left
    rw [containsB_iff]
    refine ⟨u, t.take (l₁.length - u.length - p.length), ?_⟩
    have h1 : l₁ = (l₁ ++ l₂).take l₁.length := by simp
    conv_lhs => rw [h1]
    rw [ht, List.append_assoc, List.take_append_eq_append_take]
    have hu : u.take l₁.length = u := List.take_of_length_le (by omega)
    rw [hu, List.take_append_eq_append_take]
    have hp : p.take (l₁.length - u.length) = p := List.take_of_length_le (by omega)
    rw [hp, List.append_assoc]
  · rcases le_or_lt l₁.length u.length with hc2 | hc2
    · right; left
      rw [containsB_iff]
      refine ⟨u.drop l₁.length, t, ?_⟩
      have h1 : l₂ = (l₁ ++ l₂).drop l₁.length := by simp
      conv_lhs => rw [h1]
      rw [ht, List.append_assoc, List.drop_append_eq_append_drop]
      have h0 : l₁.length - u.length = 0 := by omega
      rw [h0, List.drop_zero, List.append_assoc]
    · right; right
      refine ⟨l₁.length - u.length, by omega, by omega, ?_, ?_⟩
      · rw [isSuffixB_iff]
        refine ⟨u, ?_⟩
        have h1 : l₁ = (l₁ ++ l₂).take l₁.length := by simp
        conv_lhs => rw [h1]
        rw [ht, List.append_assoc, List.take_append_eq_append_take]
        have hu : u.take l₁.length = u := List.take_of_length_le (by omega)
        rw [hu, List.take_append_eq_append_take]
        have h0 : l₁.length - u.length - p.length = 0 := by omega
        rw [h0, List.take_zero, List.append_nil]
      · rw [isPrefixB_iff]
        refine ⟨t, ?_⟩
        have h1 : l₂ = (l₁ ++ l₂).drop l₁.length := by simp
        conv_lhs => rw [h1]
        rw [ht, List.append_assoc, List.drop_append_eq_append_drop]
        have hu0 : u.drop l₁.length = [] := List.drop_eq_nil_of_le (by omega)
        rw [hu0, List.nil_append, List.drop_append_eq_append_drop]
        have h0 : l₁.length - u.length - p.length = 0 := by omega
        rw [h0, List.drop_zero]

/-- If the needle occurs neither in the left part nor in the right part,
and no nonempty proper prefix of it is a suffix of the left part, it does
not occur in the append. -/
theorem not_containsB_append {p l₁ l₂ : List Char}
    (h₁ : containsB p l₁ = false) (h₂ : containsB p l₂ = false)
    (h₃ : ∀ i, i < p.length → 0 < i → isSuffixB (p.take i) l₁ = false) :
    containsB p (l₁ ++ l₂) = false := by
  by_contra hcon
  have hc : containsB p (l₁ ++ l₂) = true := by
    simpa using hcon
  rcases containsB_append_cases hc with h | h | ⟨i, hi0, hilen, hsuf, _⟩
  · rw [h₁] at h; cases h
  · rw [h₂] at h; cases h
  · rw [h₃ i hilen hi0] at hsuf; cases hsuf

/-- C2: the amount-ceiling rejection is boundary-exact.  A payment of
exactly 300000 cents reaches the gateway (whatever the gateway then
does); any amount strictly greater is rejected before any gateway call,
with exactly the one journal entry tagged `DECLINED` appended and an
external alert sent. -/
theorem ceiling_boundary_exact (env : Env) (db : DB) (fs : FailSpec)
    (inp : Inputs) (gw : GatewayResponse) (now : Nat) :
    (process_payment env db fs inp (some 300000) gw now).gatewayCalled = true ∧
    ∀ c : ℤ, 300000 < c →
      (process_payment env db fs inp (some c) gw now).gatewayCalled = false ∧
      (process_payment env db fs inp (some c) gw now).journal
        = [{ customer := journalName inp.customerText,
             amountText := inp.amountText, outcome := "DECLINED",
             timestamp := now, authCode := none }] ∧
      (process_payment env db fs inp (some c) gw now).alerts ≠ [] := by
  constructor
  · simp only [process_payment]
    rw [if_neg (show ¬ ((300000 : ℤ) > 300000) by omega)]
    cases gw with
    | ok s r a =>
      dsimp only
      by_cases h1 : (s == "APPROVED") = true
      · rw [if_pos h1]
      · rw [if_neg h1]
        by_cases h2 : (s == "DECLINED") = true
        · rw [if_pos h2]
          cases hm : lookupResponseCode r <;> rfl
        · rw [if_neg h2]
    | badRequest m => rfl
    | fault m => rfl
  · intro c hcgt
    simp only [process_payment]
    rw [if_pos (show c > 300000 from hcgt)]
    exact ⟨rfl, rfl, by simp⟩

/-- Witness for C2 at a concrete amount: 300001 cents is rejected with no
gateway call. -/
theorem ceiling_boundary_exact_witness :
    (process_payment sampleEnv sampleDB noFailSpec
        { customerText := "12345 Smith", amountText := "$3000.01" }
        (some 300001) (GatewayResponse.ok "APPROVED" "" "AUTH1") 0).gatewayCalled
      = false :=
  ((ceiling_boundary_exact sampleEnv sampleDB noFailSpec
      { customerText := "12345 Smith", amountText := "$3000.01" }
      (GatewayResponse.ok "APPROVED" "" "AUTH1") 0).2 300001 (by decide)).1

/-- C6 (amended): every attempt that reaches a classified outcome —
validation-rejected, approved, declined with known or unknown reason,
unknown status, or gateway bad-request — appends exactly one journal
entry with customer label, amount, outcome, timestamp and optional
authorization code; attempts that end in the catch-all `BaseException`
handler (amount parse failure, or a gateway fault such as a connection
error) append none, so ValidationError is always journaled but a
GatewayFault is journaled only when it is a structured bad request. -/
theorem journal_exactly_one_when_classified (env : Env) (db : DB)
    (fs : FailSpec) (inp : Inputs) (oc : Option ℤ) (gw : GatewayResponse)
    (now : Nat) :
    (process_payment env db fs inp oc gw now).journal.length
      = expectedJournalCount oc gw := by
  cases oc with
  | none => rfl
  | some c =>
    simp only [process_payment, expectedJournalCount]
    by_cases h : (c > 300000)
    · rw [if_pos h, if_pos h]
      rfl
    · rw [if_neg h, if_neg h]
      cases gw with
      | ok s r a =>
        dsimp only
        by_cases h1 : (s == "APPROVED") = true
        · rw [if_pos h1]
          rfl
        · rw [if_neg h1]
          by_cases h2 : (s == "DECLINED") = true
          · rw [if_pos h2]
            cases hm : lookupResponseCode r <;> rfl
          · rw [if_neg h2]
            rfl
      | badRequest m => rfl
      | fault m => rfl

/-- Counterexample to C6 as stated: a gateway connection fault (an
exception other than `simplify.BadRequestError`) lands in the catch-all
handler of `process_payment`, which alerts and logs but appends no
journal entry — the attempt is not journaled. -/
theorem journal_missing_on_gateway_fault :
    (process_payment sampleEnv sampleDB noFailSpec
        { customerText := "12345 Smith", amountText := "$50" }
        (some 5000) (GatewayResponse.fault "connection error") 0).journal
      = [] := rfl

/-- C8: for every approved payment, the authorization code is copied to
the operator's clipboard exactly when the posting outcome message does
not contain the applied-to-account indicator; and when the posting was
applied to a real account, the message does contain it, so the clipboard
is not updated. -/
theorem clipboard_iff_message_not_applied (env : Env) (db : DB)
    (fs : FailSpec) (inp : Inputs) (c : ℤ) (reason authCode : String)
    (now : Nat) (hc : c ≤ 300000) :
    ((process_payment env db fs inp (some c)
        (GatewayResponse.ok "APPROVED" reason authCode) now).clipboard
        = some authCode
      ↔ containsPhrase "applied to account"
          (apply_payment env db fs (firstToken inp.customerText) authCode
            (pyDiv100 c)).message = false) ∧
    (postingSucceedsB db fs (firstToken inp.customerText) = true →
      (firstToken inp.customerText == "00000") = false →
      (process_payment env db fs inp (some c)
        (GatewayResponse.ok "APPROVED" reason authCode) now).clipboard
        = none) := by
  have hgt : ¬ (c > 300000) := by omega
  constructor
  · simp only [process_payment]
    rw [if_neg hgt]
    rw [if_pos (show (("APPROVED" : String) == "APPROVED") = true from rfl)]
    cases hph : containsPhrase "applied to account"
        (apply_payment env db fs (firstToken inp.customerText) authCode
          (pyDiv100 c)).message
    · simp [hph]
    · simp [hph]
  · intro hsucc hne
    have hmsg : (apply_payment env db fs (firstToken inp.customerText)
          authCode (pyDiv100 c)).message
        = appliedMessage (firstToken inp.customerText) authCode := by
      have hs := hsucc
      unfold postingSucceedsB at hs
      simp only [Bool.and_eq_true] at hs
      obtain ⟨⟨⟨hf, hnum⟩, hb'⟩, hlk'⟩ := hs
      obtain ⟨b, hb⟩ := Option.isSome_iff_exists.mp hb'
      obtain ⟨lk, hlk⟩ := Option.isSome_iff_exists.mp hlk'
      rw [apply_payment_success_eq env db fs (firstToken inp.customerText)
        authCode (pyDiv100 c) b lk hne hnum hb hlk hf]
    have hcontains : containsPhrase "applied to account"
        (appliedMessage (firstToken inp.customerText) authCode) = true := by
      unfold appliedMessage containsPhrase
      rw [data_append, data_append, data_append]
      apply containsB_append_left
      apply containsB_append_left
      apply containsB_append_left
      decide
    simp only [process_payment]
    rw [if_neg hgt]
    rw [if_pos (show (("APPROVED" : String) == "APPROVED") = true from rfl)]
    simp [hmsg, hcontains]

/-- Witness for C8 at a concrete input: account 12345 exists and the
posting succeeds, so the clipboard is not updated. -/
theorem clipboard_iff_message_not_applied_witness :
    (process_payment sampleEnv sampleDB noFailSpec
        { customerText := "12345 Smith", amountText := "$50" } (some 5000)
        (GatewayResponse.ok "APPROVED" "" "AUTH1") 0).clipboard = none :=
  (clipboard_iff_message_not_applied sampleEnv sampleDB noFailSpec
      { customerText := "12345 Smith", amountText := "$50" } 5000 "" "AUTH1" 0
      (by decide)).2 (by decide) (by decide)

/-- C10: for every approved payment whose customer field leads with the
sentinel account "00000", the exempt-path success message does not
contain "applied to account" (given that the authorization code itself
does not contain that phrase), so the authorization code IS copied to the
operator's clipboard. -/
theorem sentinel_clipboard_copied (env : Env) (db : DB) (fs : FailSpec)
    (inp : Inputs) (c : ℤ) (reason authCode : String) (now : Nat)
    (hc : c ≤ 300000)
    (hsent : firstToken inp.customerText = "00000")
    (hauth : containsPhrase "applied to account" authCode = false) :
    (process_payment env db fs inp (some c)
        (GatewayResponse.ok "APPROVED" reason authCode) now).clipboard
      = some authCode
    ∧ (apply_payment env db fs (firstToken inp.customerText) authCode
        (pyDiv100 c)).message = exemptMessage authCode := by
  have hgt : ¬ (c > 300000) := by omega
  have hmsg : (apply_payment env db fs (firstToken inp.customerText) authCode
      (pyDiv100 c)).message = exemptMessage authCode := by
    rw [hsent]
    rfl
  have hnophrase : containsPhrase "applied to account"
      (exemptMessage authCode) = false := by
    unfold exemptMessage containsPhrase
    rw [data_append]
    apply not_containsB_append
    · decide
    · exact hauth
    · decide
  refine ⟨?_, hmsg⟩
  simp only [process_payment]
  rw [if_neg hgt]
  rw [if_pos (show (("APPROVED" : String) == "APPROVED") = true from rfl)]
  simp [hmsg, hnophrase]

/-- Witness for C10 at a concrete input: a sentinel-account approved
payment copies the authorization code to the clipboard. -/
theorem sentinel_clipboard_copied_witness :
    (process_payment sampleEnv sampleDB noFailSpec
        { customerText := "00000 - ", amountText := "$50" } (some 5000)
        (GatewayResponse.ok "APPROVED" "" "AUTH1") 0).clipboard
      = some "AUTH1" :=
  (sentinel_clipboard_copied sampleEnv sampleDB noFailSpec
      { customerText := "00000 - ", amountText := "$50" } 5000 "" "AUTH1" 0
      (by decide) (by decide) (by decide)).1

end DWGPOS
